import Mathlib

/-!
Verification development for the external-preimage subsystem of a
payment-channel node: an external preimage client (extpreimage/client.go),
per-invoice resolution glue (extpreimage/invoice.go and
channeldb/invoice_preimages.go), and the preimage beacon
(witness_beacon.go, with the polling variant).

Byte strings are modelled as lists of naturals; Go errors as
`Option String` (`none` is the nil error); the remote RPC round trip,
the SHA-256 function and the collaborator stores are parameters of the
model, since the Go code reaches them through interfaces.
-/

namespace Lnd

/-- Byte strings (Go byte slices and arrays) as lists of naturals. -/
abbrev Bytes := List Nat

/-- The zero value of a Go `[32]byte`, `var preimage [32]byte`. -/
def zeroPreimage : Bytes := List.replicate 32 0

/-- extpreimage.PreimageRequest (client.go): a request for a preimage. -/
structure PreimageRequest where
  paymentHash : Bytes
  amount : Int
  timeLock : Nat
  bestHeight : Nat
deriving Repr, DecidableEq

/-- GetPreimageResponse of the wire protocol (rpc.proto): a returned
preimage together with a permanent-error string, empty when absent. -/
structure GetPreimageResponse where
  paymentPreimage : Bytes
  permanentError : String
deriving Repr, DecidableEq

/-- The `([32]byte, error, error)` result triple of `client.Retrieve` and
of `GetPaymentPreimage`: a preimage, a temporary error and a permanent
error. -/
structure RetrieveResult where
  preimage : Bytes
  tempErr : Option String
  permErr : Option String
deriving Repr, DecidableEq

/-- client.symbol (client.go): the configured chain name maps to a
currency symbol only for "bitcoin" and "litecoin"; anything else errors. -/
def validChain (chain : String) : Bool :=
  chain = "bitcoin" || chain = "litecoin"

/-- Message head wrapped around a server-declared permanent error in
`client.Retrieve` (client.go). -/
def permErrHead : String :=
  "extpreimage: Encountered permanent error from external service: "

/-- client.Retrieve (extpreimage/client.go, lines 150-201). `sha` stands
for crypto/sha256's Sum256, `chain` for the configured chain name, and
`rpcRes` for the outcome of the internal `retrieve` round trip to the
external service (`Except.error` is a transport failure). The result
carries the preimage, the temporary error and the permanent error, in
the order of the Go return values. -/
def Retrieve (sha : Bytes → Bytes) (chain : String)
    (rpcRes : Except String GetPreimageResponse)
    (req : PreimageRequest) : RetrieveResult :=
  if validChain chain = false then
    { preimage := zeroPreimage,
      tempErr := some ("extpreimage: Invalid chain name: " ++ chain),
      permErr := none }
  else
    match rpcRes with
    | Except.error e =>
      { preimage := zeroPreimage, tempErr := some e, permErr := none }
    | Except.ok res =>
      if res.permanentError ≠ "" then
        { preimage := zeroPreimage, tempErr := none,
          permErr := some (permErrHead ++ res.permanentError) }
      else if res.paymentPreimage.length ≠ 32 then
        { preimage := zeroPreimage,
          tempErr := some ("extpreimage: Returned preimage was of length "
            ++ toString res.paymentPreimage.length ++ ", expected 32"),
          permErr := none }
      else if sha res.paymentPreimage ≠ req.paymentHash then
        { preimage := zeroPreimage,
          tempErr := some "extpreimage: Returned preimage did not match provided hash",
          permErr := none }
      else
        { preimage := res.paymentPreimage, tempErr := none, permErr := none }

/-- extpreimage.Invoice (invoice.go) and the matching fields of
channeldb.ContractTerm: the view of an invoice used for preimage
resolution. `value` is in milli-satoshis. -/
structure Invoice where
  externalPreimage : Bool
  paymentHash : Bytes
  paymentPreimage : Bytes
  value : Nat
  settled : Bool
deriving Repr, DecidableEq

/-- lnwire.MilliSatoshi.ToSatoshis: integer division by 1000. -/
def toSatoshis (msat : Nat) : Nat := msat / 1000

/-- Result of `GetPaymentPreimage` together with its observable effects:
the receiver invoice after the call (the Go method takes a pointer
receiver), the `([32]byte, error, error)` triple, the requests issued to
the external preimage client, and the `AddInvoicePreimage` writes issued
to the invoice registry. -/
structure ResolveResult where
  invoice : Invoice
  preimage : Bytes
  tempErr : Option String
  permErr : Option String
  clientCalls : List PreimageRequest
  registryWrites : List (Bytes × Bytes)
deriving Repr, DecidableEq

/-- Invoice.GetPaymentPreimage (extpreimage/invoice.go, lines 77-124) and
the identical ContractTerm.GetPaymentPreimage
(channeldb/invoice_preimages.go, lines 67-116). `client` is `none` when
no extpreimage client is configured, otherwise the client's Retrieve
behaviour; `registry` is the invoice registry's AddInvoicePreimage,
returning the write's error. Every branch reports the receiver invoice
it leaves behind and the calls it made. -/
def GetPaymentPreimage (i : Invoice) (timeLock : Nat) (currentHeight : Nat)
    (client : Option (PreimageRequest → RetrieveResult))
    (registry : Bytes → Bytes → Option String) : ResolveResult :=
  if i.paymentPreimage ≠ zeroPreimage then
    { invoice := i, preimage := i.paymentPreimage, tempErr := none,
      permErr := none, clientCalls := [], registryWrites := [] }
  else if i.externalPreimage then
    match client with
    | none =>
      { invoice := i, preimage := zeroPreimage,
        tempErr := some "no extpreimage client configured", permErr := none,
        clientCalls := [], registryWrites := [] }
    | some retrieve =>
      let req : PreimageRequest :=
        { paymentHash := i.paymentHash,
          amount := Int.ofNat (toSatoshis i.value),
          timeLock := timeLock, bestHeight := currentHeight }
      let r := retrieve req
      if r.permErr ≠ none then
        { invoice := i, preimage := zeroPreimage, tempErr := none,
          permErr := r.permErr, clientCalls := [req], registryWrites := [] }
      else if r.tempErr ≠ none then
        { invoice := i, preimage := zeroPreimage, tempErr := r.tempErr,
          permErr := none, clientCalls := [req], registryWrites := [] }
      else
        match registry i.paymentHash r.preimage with
        | some e =>
          { invoice := i, preimage := zeroPreimage, tempErr := some e,
            permErr := none, clientCalls := [req],
            registryWrites := [(i.paymentHash, r.preimage)] }
        | none =>
          { invoice := i, preimage := r.preimage, tempErr := none,
            permErr := none, clientCalls := [req],
            registryWrites := [(i.paymentHash, r.preimage)] }
  else
    { invoice := i, preimage := zeroPreimage, tempErr := none,
      permErr := some "no preimage available on invoice",
      clientCalls := [], registryWrites := [] }

/-- The outcome of `p.invoices.LookupInvoice` as observed by the beacon:
the invoice was not found (channeldb.ErrInvoiceNotFound), the lookup
failed with some other error, or an invoice was found. -/
inductive InvoiceLookupResult where
| notFound
| failed (e : String)
| found (inv : Invoice)
deriving Repr, DecidableEq

/-- Construction of the 32-byte invoice-store key from a caller-supplied
payment-hash slice in LookupPreimage (witness_beacon.go):
`var invoiceKey chainhash.Hash; copy(invoiceKey[:], payHash)` copies the
first `min 32 (length payHash)` bytes over a zero array. -/
def toInvoiceKey (payHash : Bytes) : Bytes :=
  payHash.take 32 ++ List.replicate (32 - payHash.length) 0

/-- The `([]byte, bool)` result of the beacon's LookupPreimage together
with its observable effects: the keys queried against the invoice store
and the invoices for which a background extpreimage poll goroutine was
started. `preimage = none` models a nil byte slice. -/
structure LookupOutput where
  preimage : Option Bytes
  found : Bool
  invoiceQueries : List Bytes
  scheduledPolls : List Invoice
deriving Repr, DecidableEq

/-- preimageBeacon.LookupPreimage (polling variant of witness_beacon.go,
lines 103-161). `lookupInvoice` is the invoice store's LookupInvoice,
`client`/`registry` are the beacon's extpreimage client and invoice
registry handed to the invoice's GetPaymentPreimage with zero timelock
and height, and `lookupWitness` is the witness cache's LookupWitness for
the SHA-256 witness type at the full payHash. -/
def LookupPreimage (lookupInvoice : Bytes → InvoiceLookupResult)
    (client : Option (PreimageRequest → RetrieveResult))
    (registry : Bytes → Bytes → Option String)
    (lookupWitness : Bytes → Except String Bytes)
    (payHash : Bytes) : LookupOutput :=
  let invoiceKey := toInvoiceKey payHash
  match lookupInvoice invoiceKey with
  | InvoiceLookupResult.failed _ =>
    { preimage := none, found := false, invoiceQueries := [invoiceKey],
      scheduledPolls := [] }
  | InvoiceLookupResult.found inv =>
    let r := GetPaymentPreimage inv 0 0 client registry
    if r.permErr ≠ none then
      { preimage := none, found := false, invoiceQueries := [invoiceKey],
        scheduledPolls := [] }
    else if r.tempErr ≠ none then
      { preimage := none, found := false, invoiceQueries := [invoiceKey],
        scheduledPolls := [inv] }
    else
      { preimage := some r.preimage, found := true,
        invoiceQueries := [invoiceKey], scheduledPolls := [] }
  | InvoiceLookupResult.notFound =>
    match lookupWitness payHash with
    | Except.error _ =>
      { preimage := none, found := false, invoiceQueries := [invoiceKey],
        scheduledPolls := [] }
    | Except.ok w =>
      { preimage := some w, found := true, invoiceQueries := [invoiceKey],
        scheduledPolls := [] }

/-- Result of the beacon's AddPreimage with its observable effects:
the returned error, the witness-store writes attempted, and the
subscriber ids for which a fan-out delivery was launched. -/
structure AddPreimageOutcome where
  err : Option String
  storeWrites : List Bytes
  deliveries : List Nat
deriving Repr, DecidableEq

/-- preimageBeacon.AddPreimage (witness_beacon.go, lines 190-215):
write the preimage to the witness cache; on error return it before any
subscriber fan-out; on success launch a delivery to every currently
registered subscriber. `addWitness` is the witness cache's AddWitness
and `subscribers` the registered subscriber ids. -/
def AddPreimage (addWitness : Bytes → Option String)
    (subscribers : List Nat) (pre : Bytes) : AddPreimageOutcome :=
  match addWitness pre with
  | some e => { err := some e, storeWrites := [pre], deliveries := [] }
  | none => { err := none, storeWrites := [pre], deliveries := subscribers }

/-- An event consumed by one iteration of the pollExtpreimage select
loop: either a ticker tick, carrying the result of that tick's call to
the invoice's GetPaymentPreimage, or the per-poll quit signal. -/
inductive PollEvent where
| tick (r : RetrieveResult)
| quitSignal
deriving Repr, DecidableEq

/-- Why a pollExtpreimage loop returned. -/
inductive PollStop where
| permanent
| success
| quit
deriving Repr, DecidableEq

/-- The select loop of pollExtpreimage, lines 182-212 of the polling
witness beacon, run over a finite schedule of events: a permanent error
stops the loop, a temporary error continues it, success calls
AddPreimage with the resolved preimage and stops, and the quit signal
stops it. Returns the preimages passed to AddPreimage and the stop
reason (`none` when the schedule is exhausted with the loop still
running). -/
def pollTicks : List PollEvent → List Bytes × Option PollStop
| [] => ([], none)
| PollEvent.tick r :: rest =>
  if r.permErr ≠ none then ([], some PollStop.permanent)
  else if r.tempErr ≠ none then pollTicks rest
  else ([r.preimage], some PollStop.success)
| PollEvent.quitSignal :: _ => ([], some PollStop.quit)

/-- One run of preimageBeacon.pollExtpreimage: the poll id it used, the
poll registry just after entry and at the end of the run, the preimages
it handed to AddPreimage, and the stop reason. -/
structure PollRun where
  pollID : Nat
  pollsAfterEntry : List Nat
  pollsAtExit : List Nat
  preimagesAdded : List Bytes
  stop : Option PollStop
deriving Repr, DecidableEq

/-- preimageBeacon.pollExtpreimage (polling witness beacon, lines
163-213): take the current poll counter as this poll's unique id,
register its quit channel in the poll registry, run the select loop over
the event schedule, and, by the deferred cleanup, delete the id from the
registry whenever the function returns. -/
def pollExtpreimage (polls : List Nat) (pollCounter : Nat)
    (events : List PollEvent) : PollRun :=
  let pollID := pollCounter
  let entry := polls ++ [pollID]
  let run := pollTicks events
  let exitPolls :=
    match run.2 with
    | none => entry
    | some _ => entry.filter (fun x => x ≠ pollID)
  { pollID := pollID, pollsAfterEntry := entry, pollsAtExit := exitPolls,
    preimagesAdded := run.1, stop := run.2 }

/-- Fixture: a 32-byte stand-in preimage stored on invoices. -/
def preA : Bytes := List.replicate 32 5

/-- Fixture: a 32-byte preimage as returned by a stub server. -/
def preB : Bytes := List.replicate 32 7

/-- Fixture: a 32-byte stand-in payment hash. -/
def hashA : Bytes := List.replicate 32 9

/-- Fixture: a second, different 32-byte payment hash. -/
def hashB : Bytes := List.replicate 32 8

/-- Fixture: a stub hash function mapping every input to hashA. -/
def shaStub : Bytes → Bytes := fun _ => hashA

/-- Fixture: a well-formed response carrying preB and no permanent
error. -/
def respB : GetPreimageResponse :=
  { paymentPreimage := preB, permanentError := "" }

/-- Fixture: a preimage request for hashA. -/
def reqA : PreimageRequest :=
  { paymentHash := hashA, amount := 1, timeLock := 0, bestHeight := 0 }

/-- Fixture: a preimage request for hashB. -/
def reqB : PreimageRequest :=
  { paymentHash := hashB, amount := 1, timeLock := 0, bestHeight := 0 }

/-- Fixture: an invoice with a stored local preimage. -/
def invLocal : Invoice :=
  { externalPreimage := false, paymentHash := zeroPreimage,
    paymentPreimage := preA, value := 0, settled := false }

/-- Fixture: an external-preimage invoice that also stores a local
preimage. -/
def invLocalExt : Invoice :=
  { externalPreimage := true, paymentHash := hashA,
    paymentPreimage := preA, value := 1000, settled := false }

/-- Fixture: an external-preimage invoice with no stored preimage. -/
def invExt : Invoice :=
  { externalPreimage := true, paymentHash := hashA,
    paymentPreimage := zeroPreimage, value := 0, settled := false }

/-- Fixture: a non-external invoice with no stored preimage. -/
def invEmpty : Invoice :=
  { externalPreimage := false, paymentHash := zeroPreimage,
    paymentPreimage := zeroPreimage, value := 1000, settled := false }

/-- Fixture: a configured client whose Retrieve reports being called. -/
def clientNever : Option (PreimageRequest → RetrieveResult) :=
  some (fun _ =>
    { preimage := zeroPreimage, tempErr := some "should never be called",
      permErr := none })

/-- Fixture: a registry whose write reports being called. -/
def regNever : Bytes → Bytes → Option String :=
  fun _ _ => some "should never be called"

/-- Fixture: a resolution tick outcome carrying a temporary error. -/
def rTemp : RetrieveResult :=
  { preimage := zeroPreimage, tempErr := some "fake temp error",
    permErr := none }

/-- Fixture: a resolution tick outcome carrying a permanent error. -/
def rPerm : RetrieveResult :=
  { preimage := zeroPreimage, tempErr := none,
    permErr := some "fake perm error" }

/-- Fixture: a successful resolution tick outcome carrying preB. -/
def rOk : RetrieveResult :=
  { preimage := preB, tempErr := none, permErr := none }

/-- C1: whenever Retrieve returns with both error results nil, the
returned preimage is exactly 32 bytes long and SHA-256 of it equals the
request's PaymentHash; and whenever the response's preimage fails the
hash check (well-formed response, empty permanent error, 32-byte
preimage whose hash differs from the requested one), Retrieve returns a
temporary error and a nil permanent error, never a permanent one. -/
theorem retrieve_verifies_hash (sha : Bytes → Bytes) (chain : String)
    (rpcRes : Except String GetPreimageResponse) (req : PreimageRequest) :
    ((Retrieve sha chain rpcRes req).tempErr = none →
      (Retrieve sha chain rpcRes req).permErr = none →
      (Retrieve sha chain rpcRes req).preimage.length = 32 ∧
        sha (Retrieve sha chain rpcRes req).preimage = req.paymentHash) ∧
    (∀ res : GetPreimageResponse, rpcRes = Except.ok res →
      res.permanentError = "" → res.paymentPreimage.length = 32 →
      sha res.paymentPreimage ≠ req.paymentHash →
      (Retrieve sha chain rpcRes req).tempErr ≠ none ∧
        (Retrieve sha chain rpcRes req).permErr = none) := by
  constructor
  · intro ht hp
    by_cases hc : validChain chain = false
    · simp [Retrieve, hc] at ht
    · cases rpcRes with
      | error e => simp [Retrieve, hc] at ht
      | ok res =>
        by_cases h1 : res.permanentError = ""
        · by_cases h2 : res.paymentPreimage.length = 32
          · by_cases h3 : sha res.paymentPreimage = req.paymentHash
            · simp [Retrieve, hc, h1, h2, h3]
            · simp [Retrieve, hc, h1, h2, h3] at ht
          · simp [Retrieve, hc, h1, h2] at ht
        · simp [Retrieve, hc, h1] at hp
  · intro res hres h1 h2 h3
    subst hres
    by_cases hc : validChain chain = false
    · simp [Retrieve, hc]
    · simp [Retrieve, hc, h1, h2, h3]

/-- C1 witness: a concrete hash-matching success has a 32-byte preimage,
and a concrete hash-mismatching response yields a temporary error. -/
theorem retrieve_verifies_hash_witness :
    (Retrieve shaStub "bitcoin" (Except.ok respB) reqA).preimage.length = 32 ∧
    (Retrieve shaStub "bitcoin" (Except.ok respB) reqB).tempErr ≠ none :=
  ⟨((retrieve_verifies_hash shaStub "bitcoin" (Except.ok respB) reqA).1
      (by decide) (by decide)).1,
   ((retrieve_verifies_hash shaStub "bitcoin" (Except.ok respB) reqB).2
      respB rfl (by decide) (by decide) (by decide)).1⟩

/-- C2: neither Retrieve nor GetPaymentPreimage ever populates both
failure channels in one result, and whenever either error is non-nil the
returned preimage is the all-zero 32-byte value. -/
theorem errors_exclusive_and_zero_preimage (sha : Bytes → Bytes)
    (chain : String) (rpcRes : Except String GetPreimageResponse)
    (req : PreimageRequest) (i : Invoice) (timeLock currentHeight : Nat)
    (client : Option (PreimageRequest → RetrieveResult))
    (registry : Bytes → Bytes → Option String) :
    (¬((Retrieve sha chain rpcRes req).tempErr ≠ none ∧
        (Retrieve sha chain rpcRes req).permErr ≠ none)) ∧
    (((Retrieve sha chain rpcRes req).tempErr ≠ none ∨
        (Retrieve sha chain rpcRes req).permErr ≠ none) →
      (Retrieve sha chain rpcRes req).preimage = zeroPreimage) ∧
    (¬((GetPaymentPreimage i timeLock currentHeight client registry).tempErr ≠ none ∧
        (GetPaymentPreimage i timeLock currentHeight client registry).permErr ≠ none)) ∧
    (((GetPaymentPreimage i timeLock currentHeight client registry).tempErr ≠ none ∨
        (GetPaymentPreimage i timeLock currentHeight client registry).permErr ≠ none) →
      (GetPaymentPreimage i timeLock currentHeight client registry).preimage
        = zeroPreimage) := by
  refine ⟨?_, ?_, ?_, ?_⟩
  · unfold Retrieve
    split
    · simp
    · split
      · simp
      · split
        · simp
        · split
          · simp
          · split <;> simp
  · unfold Retrieve
    split
    · simp
    · split
      · simp
      · split
        · simp
        · split
          · simp
          · split <;> simp
  · unfold GetPaymentPreimage
    split
    · simp
    · split
      · split
        · simp
        · dsimp only
          split
          · simp
          · split
            · simp
            · split <;> simp
      · simp
  · unfold GetPaymentPreimage
    split
    · simp
    · split
      · split
        · simp
        · dsimp only
          split
          · simp
          · split
            · simp
            · split <;> simp
      · simp

/-- C2 witness: on a concrete temporary failure of Retrieve (invalid
chain) and a concrete permanent failure of GetPaymentPreimage (empty
non-external invoice), the populated channel is unique and the preimage
is the zero value. -/
theorem errors_exclusive_and_zero_preimage_witness :
    (Retrieve shaStub "dogecoin" (Except.error "transport") reqA).preimage
      = zeroPreimage ∧
    (GetPaymentPreimage invEmpty 0 0 none (fun _ _ => none)).preimage
      = zeroPreimage :=
  ⟨(errors_exclusive_and_zero_preimage shaStub "dogecoin"
      (Except.error "transport") reqA invEmpty 0 0 none
      (fun _ _ => none)).2.1 (Or.inl (by decide)),
   (errors_exclusive_and_zero_preimage shaStub "dogecoin"
      (Except.error "transport") reqA invEmpty 0 0 none
      (fun _ _ => none)).2.2.2 (Or.inr (by decide))⟩

/-- C3: when the invoice store yields an invoice, LookupPreimage never
surfaces the resolution error to its caller: a permanent resolution
error gives (nil, false) with no poll scheduled, a temporary resolution
error gives (nil, false) and schedules a background poll for that
invoice, and a successful resolution returns the resolved preimage with
found = true. -/
theorem lookup_preimage_degrades_errors
    (lookupInvoice : Bytes → InvoiceLookupResult)
    (client : Option (PreimageRequest → RetrieveResult))
    (registry : Bytes → Bytes → Option String)
    (lookupWitness : Bytes → Except String Bytes)
    (payHash : Bytes) (inv : Invoice)
    (hfound : lookupInvoice (toInvoiceKey payHash)
      = InvoiceLookupResult.found inv) :
    ((GetPaymentPreimage inv 0 0 client registry).permErr ≠ none →
      LookupPreimage lookupInvoice client registry lookupWitness payHash =
        { preimage := none, found := false,
          invoiceQueries := [toInvoiceKey payHash], scheduledPolls := [] }) ∧
    ((GetPaymentPreimage inv 0 0 client registry).permErr = none →
      (GetPaymentPreimage inv 0 0 client registry).tempErr ≠ none →
      LookupPreimage lookupInvoice client registry lookupWitness payHash =
        { preimage := none, found := false,
          invoiceQueries := [toInvoiceKey payHash], scheduledPolls := [inv] }) ∧
    ((GetPaymentPreimage inv 0 0 client registry).permErr = none →
      (GetPaymentPreimage inv 0 0 client registry).tempErr = none →
      LookupPreimage lookupInvoice client registry lookupWitness payHash =
        { preimage := some (GetPaymentPreimage inv 0 0 client registry).preimage,
          found := true, invoiceQueries := [toInvoiceKey payHash],
          scheduledPolls := [] }) := by
  refine ⟨?_, ?_, ?_⟩
  · intro hp
    simp [LookupPreimage, hfound, hp]
  · intro hp ht
    simp [LookupPreimage, hfound, hp, ht]
  · intro hp ht
    simp [LookupPreimage, hfound, hp, ht]

/-- C3 witness: a concrete found invoice with a stored local preimage
resolves with found = true, and a concrete found external-preimage
invoice with no configured client degrades its temporary error to
(nil, false) plus one scheduled poll. -/
theorem lookup_preimage_degrades_errors_witness :
    (LookupPreimage (fun _ => InvoiceLookupResult.found invLocal) none
      (fun _ _ => none) (fun _ => Except.error "no witness") [] =
      { preimage := some preA, found := true,
        invoiceQueries := [toInvoiceKey []], scheduledPolls := [] }) ∧
    (LookupPreimage (fun _ => InvoiceLookupResult.found invExt) none
      (fun _ _ => none) (fun _ => Except.error "no witness") [] =
      { preimage := none, found := false,
        invoiceQueries := [toInvoiceKey []], scheduledPolls := [invExt] }) :=
  ⟨((lookup_preimage_degrades_errors
      (fun _ => InvoiceLookupResult.found invLocal) none (fun _ _ => none)
      (fun _ => Except.error "no witness") [] invLocal rfl).2.2
      (by decide) (by decide)).trans (by decide),
   ((lookup_preimage_degrades_errors
      (fun _ => InvoiceLookupResult.found invExt) none (fun _ _ => none)
      (fun _ => Except.error "no witness") [] invExt rfl).2.1
      (by decide) (by decide)).trans (by decide)⟩

/-- C4: when the witness-store write inside AddPreimage fails, the call
returns that error and performs no subscriber fan-out: no delivery is
attempted for any registered subscriber. -/
theorem add_preimage_no_fanout_on_store_failure
    (addWitness : Bytes → Option String) (subscribers : List Nat)
    (pre : Bytes) (e : String) (h : addWitness pre = some e) :
    (AddPreimage addWitness subscribers pre).err = some e ∧
    (AddPreimage addWitness subscribers pre).deliveries = [] := by
  unfold AddPreimage
  rw [h]
  exact ⟨rfl, rfl⟩

/-- C4 witness: a concrete failing store write with two registered
subscribers returns the store error and attempts no delivery. -/
theorem add_preimage_no_fanout_on_store_failure_witness :
    (AddPreimage (fun _ => some "disk full") [1, 2]
      (List.replicate 32 4)).err = some "disk full" ∧
    (AddPreimage (fun _ => some "disk full") [1, 2]
      (List.replicate 32 4)).deliveries = [] :=
  add_preimage_no_fanout_on_store_failure (fun _ => some "disk full") [1, 2]
    (List.replicate 32 4) "disk full" rfl

/-- C5: an invoice with a non-zero stored PaymentPreimage resolves to
that stored preimage with both errors nil, regardless of the
ExternalPreimage flag, with no call to the external preimage client and
no write to the registry. -/
theorem local_preimage_short_circuits (i : Invoice)
    (timeLock currentHeight : Nat)
    (client : Option (PreimageRequest → RetrieveResult))
    (registry : Bytes → Bytes → Option String)
    (h : i.paymentPreimage ≠ zeroPreimage) :
    GetPaymentPreimage i timeLock currentHeight client registry =
      { invoice := i, preimage := i.paymentPreimage, tempErr := none,
        permErr := none, clientCalls := [], registryWrites := [] } := by
  unfold GetPaymentPreimage
  simp [h]

/-- C5 witness: a concrete external-flagged invoice with a stored
preimage returns it immediately with no client call and no registry
write. -/
theorem local_preimage_short_circuits_witness :
    GetPaymentPreimage invLocalExt 288 123456 clientNever regNever =
      { invoice := invLocalExt, preimage := preA, tempErr := none,
        permErr := none, clientCalls := [], registryWrites := [] } :=
  (local_preimage_short_circuits invLocalExt 288 123456 clientNever regNever
    (by decide)).trans (by decide)

/-- C6: an invoice whose stored PaymentPreimage is the all-zero value
and whose ExternalPreimage flag is false resolves to the permanent
error "no preimage available on invoice", a nil temporary error and the
zero preimage. -/
theorem no_preimage_permanent_error (i : Invoice)
    (timeLock currentHeight : Nat)
    (client : Option (PreimageRequest → RetrieveResult))
    (registry : Bytes → Bytes → Option String)
    (h1 : i.paymentPreimage = zeroPreimage)
    (h2 : i.externalPreimage = false) :
    GetPaymentPreimage i timeLock currentHeight client registry =
      { invoice := i, preimage := zeroPreimage, tempErr := none,
        permErr := some "no preimage available on invoice",
        clientCalls := [], registryWrites := [] } := by
  unfold GetPaymentPreimage
  simp [h1, h2]

/-- C6 witness: a concrete empty local-preimage invoice yields exactly
the permanent "no preimage available on invoice" outcome. -/
theorem no_preimage_permanent_error_witness :
    GetPaymentPreimage invEmpty 288 123456 none (fun _ _ => none) =
      { invoice := invEmpty, preimage := zeroPreimage, tempErr := none,
        permErr := some "no preimage available on invoice",
        clientCalls := [], registryWrites := [] } :=
  no_preimage_permanent_error invEmpty 288 123456 none (fun _ _ => none)
    rfl rfl

/-- C7: when the remote response carries a non-empty permanent-error
string, Retrieve surfaces it (appended verbatim to a fixed message head)
as its permanent error, with a nil temporary error and the zero-value
preimage. -/
theorem permanent_error_surfaced (sha : Bytes → Bytes) (chain : String)
    (req : PreimageRequest) (res : GetPreimageResponse)
    (hc : validChain chain = true) (hp : res.permanentError ≠ "") :
    Retrieve sha chain (Except.ok res) req =
      { preimage := zeroPreimage, tempErr := none,
        permErr := some (permErrHead ++ res.permanentError) } := by
  unfold Retrieve
  simp [hc, hp]

/-- C7 witness: for permanent_error = "boom" the permanent error message
ends in "boom", the temporary error is nil and the preimage is the zero
value. -/
theorem permanent_error_surfaced_witness :
    Retrieve (fun _ => []) "bitcoin"
      (Except.ok { paymentPreimage := [], permanentError := "boom" })
      { paymentHash := [], amount := 0, timeLock := 0, bestHeight := 0 } =
      { preimage := zeroPreimage, tempErr := none,
        permErr := some (permErrHead ++ "boom") } :=
  permanent_error_surfaced (fun _ => []) "bitcoin"
    { paymentHash := [], amount := 0, timeLock := 0, bestHeight := 0 }
    { paymentPreimage := [], permanentError := "boom" }
    rfl (by decide)

/-- C8: pollExtpreimage registers its unique id in the poll registry on
entry and removes it on every exit path; on each tick a permanent
resolution error terminates the loop with no AddPreimage call, a
temporary resolution error leaves the loop running over the remaining
schedule, a successful resolution calls AddPreimage with the resolved
preimage and then terminates, and the quit signal terminates with no
AddPreimage call. -/
theorem poll_extpreimage_lifecycle (polls : List Nat) (pollCounter : Nat)
    (events : List PollEvent) :
    (pollExtpreimage polls pollCounter events).pollID ∈
      (pollExtpreimage polls pollCounter events).pollsAfterEntry ∧
    ((pollExtpreimage polls pollCounter events).stop.isSome →
      (pollExtpreimage polls pollCounter events).pollID ∉
        (pollExtpreimage polls pollCounter events).pollsAtExit) ∧
    (∀ r rest, events = PollEvent.tick r :: rest →
      (r.permErr ≠ none →
        (pollExtpreimage polls pollCounter events).stop
            = some PollStop.permanent ∧
          (pollExtpreimage polls pollCounter events).preimagesAdded = []) ∧
      (r.permErr = none → r.tempErr ≠ none →
        pollTicks events = pollTicks rest) ∧
      (r.permErr = none → r.tempErr = none →
        (pollExtpreimage polls pollCounter events).stop
            = some PollStop.success ∧
          (pollExtpreimage polls pollCounter events).preimagesAdded
            = [r.preimage])) ∧
    (∀ rest, events = PollEvent.quitSignal :: rest →
      (pollExtpreimage polls pollCounter events).stop = some PollStop.quit ∧
        (pollExtpreimage polls pollCounter events).preimagesAdded = []) := by
  refine ⟨?_, ?_, ?_, ?_⟩
  · simp [pollExtpreimage]
  · intro hs
    unfold pollExtpreimage at hs ⊢
    dsimp only at hs ⊢
    cases h2 : (pollTicks events).2 with
    | none => simp [h2] at hs
    | some s => simp [List.mem_filter]
  · intro r rest hev
    subst hev
    refine ⟨?_, ?_, ?_⟩
    · intro hp
      simp [pollExtpreimage, pollTicks, hp]
    · intro hp ht
      simp [pollTicks, hp, ht]
    · intro hp ht
      simp [pollExtpreimage, pollTicks, hp, ht]
  · intro rest hev
    subst hev
    simp [pollExtpreimage, pollTicks]

/-- C8 witness: a run whose first tick reports a temporary error and
whose second tick resolves preB adds exactly preB, stops successfully,
and leaves the registry without its id; a run whose first tick reports a
permanent error adds nothing and stops. -/
theorem poll_extpreimage_lifecycle_witness :
    (pollExtpreimage [] 0
      [PollEvent.tick rTemp, PollEvent.tick rOk]).preimagesAdded = [preB] ∧
    (0 ∉ (pollExtpreimage [] 0
      [PollEvent.tick rTemp, PollEvent.tick rOk]).pollsAtExit) ∧
    (pollExtpreimage [] 0 [PollEvent.tick rPerm]).preimagesAdded = [] :=
  ⟨by
    have h := ((poll_extpreimage_lifecycle [] 0
      [PollEvent.tick rTemp, PollEvent.tick rOk]).2.2.1 rTemp
      [PollEvent.tick rOk] rfl).2.1 (by decide) (by decide)
    unfold pollExtpreimage
    dsimp only
    rw [h]
    decide,
   by
    exact (poll_extpreimage_lifecycle [] 0
      [PollEvent.tick rTemp, PollEvent.tick rOk]).2.1 (by decide),
   ((poll_extpreimage_lifecycle [] 0 [PollEvent.tick rPerm]).2.2.1 rPerm
      [] rfl).1 (by decide)|>.2⟩

/-- C9: LookupPreimage totally accepts a payHash of any length; the
invoice-store key it queries is built from at most the first 32 bytes of
payHash, zero-padded to 32 bytes, so the key always has length 32, the
invoice store is queried exactly at that key, and any two payHash values
agreeing on their first 32 bytes produce the same key. -/
theorem invoice_key_from_first_32_bytes
    (lookupInvoice : Bytes → InvoiceLookupResult)
    (client : Option (PreimageRequest → RetrieveResult))
    (registry : Bytes → Bytes → Option String)
    (lookupWitness : Bytes → Except String Bytes)
    (payHash h1 h2 : Bytes) (hagree : h1.take 32 = h2.take 32) :
    (toInvoiceKey payHash).length = 32 ∧
    (LookupPreimage lookupInvoice client registry lookupWitness
      payHash).invoiceQueries = [toInvoiceKey payHash] ∧
    toInvoiceKey h1 = toInvoiceKey h2 := by
  refine ⟨?_, ?_, ?_⟩
  · simp only [toInvoiceKey, List.length_append, List.length_take,
      List.length_replicate]
    omega
  · unfold LookupPreimage
    dsimp only
    split
    · rfl
    · split
      · rfl
      · split <;> rfl
    · split <;> rfl
  · have hlen : min 32 h1.length = min 32 h2.length := by
      have hc := congrArg List.length hagree
      simpa only [List.length_take] using hc
    have hsub : 32 - h1.length = 32 - h2.length := by omega
    unfold toInvoiceKey
    rw [hagree, hsub]

/-- C9 witness: a 3-byte payHash and a 33-byte payHash are both
accepted; the 3-byte one queries a 32-byte zero-padded key, and two
hashes agreeing on their first 32 bytes build the same key. -/
theorem invoice_key_from_first_32_bytes_witness :
    (toInvoiceKey [1, 2, 3]).length = 32 ∧
    (LookupPreimage (fun _ => InvoiceLookupResult.notFound) none
      (fun _ _ => none) (fun _ => Except.error "none") [1, 2, 3]).invoiceQueries
      = [toInvoiceKey [1, 2, 3]] ∧
    toInvoiceKey (List.replicate 32 1 ++ [7]) =
      toInvoiceKey (List.replicate 32 1 ++ [8]) :=
  invoice_key_from_first_32_bytes (fun _ => InvoiceLookupResult.notFound)
    none (fun _ _ => none) (fun _ => Except.error "none") [1, 2, 3]
    (List.replicate 32 1 ++ [7]) (List.replicate 32 1 ++ [8]) (by decide)

/-- C10: GetPaymentPreimage never mutates the invoice it is invoked on:
after any call, the receiver invoice — every field of it — is exactly
the input invoice, so even a successfully retrieved external preimage is
persisted only through the registry write and the in-memory invoice's
PaymentPreimage stays as it was. -/
theorem get_payment_preimage_preserves_invoice (i : Invoice)
    (timeLock currentHeight : Nat)
    (client : Option (PreimageRequest → RetrieveResult))
    (registry : Bytes → Bytes → Option String) :
    (GetPaymentPreimage i timeLock currentHeight client registry).invoice
      = i := by
  unfold GetPaymentPreimage
  split
  · rfl
  · split
    · split
      · rfl
      · dsimp only
        split
        · rfl
        · split
          · rfl
          · split <;> rfl
    · rfl

end Lnd
